/-
Verification of the captcha-service Challenge Engine.

Shallow embedding of the slider-puzzle captcha service:
  - the gRPC service in cmd (slider-puzzle variant): NewChallenge and the
    MakeEventStream event loop, including its scoring arithmetic;
  - internal/generator/generator.go: Generate and the ChallengeData payload;
  - the semantics of the vendored go-cache store operations the service calls
    (cache.Set with a TTL, cache.Get with lazy expiry, cache.Delete), and of
    strconv.Atoi on the solution payload.

Machine integers: Go `int` is int64 here. The Atoi range check is modelled
explicitly, and the delta computation of the scoring branch — which can
reach the int64 limits, since Atoi admits coordinates up to ±(2^63 − 1) —
wraps through `wrap64` exactly as Go two's-complement arithmetic does. The
tolerance arithmetic cannot wrap for any int64 complexity. Go `/` on int
truncates toward zero, which is Int.tdiv in Lean (NOT Int.fdiv, the
flooring division).
-/
import Mathlib

namespace Captcha

/-- Stored answer for one challenge: `type solution struct { X int; Complexity int }`. -/
structure Solution where
  X : Int
  Complexity : Int
deriving DecidableEq, Repr

/-- One go-cache item: the stored value plus its absolute expiration time
(UnixNano). go-cache stores `Expiration int64`, 0 or negative meaning
"no expiry". -/
structure Item where
  value : Solution
  expiration : Int
deriving DecidableEq, Repr

/-- The challenge store: association list keyed by challenge id, first
binding wins (map semantics; `cacheSet` prepends, `cacheDelete` removes
every binding of the key). -/
abbrev Store := List (String × Item)

/-- First binding for a key, if any — the underlying map read of go-cache. -/
def storeLookup : Store → String → Option Item
  | [], _ => none
  | (k, it) :: rest, key => if k = key then some it else storeLookup rest key

/-- go-cache `Set(k, v, ttl)` with a positive ttl: the item is stored with
absolute expiration `now + ttl`. Prepending shadows any earlier binding,
which matches the map-assignment semantics. -/
def cacheSet (now ttl : Int) (s : Store) (k : String) (v : Solution) : Store :=
  (k, ⟨v, now + ttl⟩) :: s

/-- go-cache `Delete(k)`: removes the key. On the association list this
removes every binding of `k` so that a later lookup cannot see a shadowed
stale copy. -/
def cacheDelete (k : String) : Store → Store
  | [] => []
  | (k', it) :: rest =>
    if k' = k then cacheDelete k rest else (k', it) :: cacheDelete k rest

/-- go-cache `Get(k)` at time `now`: a present item is a miss iff its
expiration is positive (an actual deadline) and `now` is strictly past it
(`time.Now().UnixNano() > item.Expiration`). Expiry is lazy: no sweep is
needed for an expired entry to be unobservable. -/
def cacheGet (now : Int) (s : Store) (k : String) : Option Solution :=
  match storeLookup s k with
  | none => none
  | some it =>
    if 0 < it.expiration ∧ it.expiration < now then none else some it.value

/-! ## Puzzle generator (internal/generator/generator.go) -/

/-- Fixed piece width, `puzzleWidth = 60`. -/
def puzzleWidth : Int := 60

/-- Fixed piece height, `puzzleHeight = 60`. -/
def puzzleHeight : Int := 60

/-- Symbolic images: the embedded background, a cropped region of an image
(`draw.Draw` from source point (x, y) into a w×h canvas), and a copy with a
semi-transparent hole painted over the rectangle at (x, y, w, h). PNG/base64
encoding (`imageToBase64`) is a fixed injective serialization, so the
information content of an encoded image is the image itself. -/
inductive Img where
  | background : Img
  | crop (src : Img) (x y w h : Int) : Img
  | punch (src : Img) (x y w h : Int) : Img
deriving DecidableEq, Repr

/-- The template data of generator.go: two encoded images plus layout
metadata. This is everything `Generate` passes to `template.Execute`, so the
rendered HTML payload is a fixed function of this record. -/
structure ChallengeData where
  BackgroundImg : Img
  PuzzleImg : Img
  PuzzleYPos : Int
  PuzzleWidth : Int
  PuzzleHeight : Int
  ContainerWidth : Int
  ContainerHeight : Int
  SliderMax : Int
deriving DecidableEq, Repr

/-- Generator.Generate, parametrized by the background dimensions and by the
two random draws: `r1` is the value of `rand.Intn(maxX - puzzleWidth)` with
`maxX = bgWidth - puzzleWidth - 10`, and `r2` the value of
`rand.Intn(maxY - 10)` with `maxY = bgHeight - puzzleHeight - 10`
(rand.Intn n returns a uniform value in [0, n)). Returns the template data
and the correct X coordinate, as the Go function returns (html, puzzleX). -/
def Generate (bgWidth bgHeight r1 r2 : Int) : ChallengeData × Int :=
  let puzzleX := r1 + puzzleWidth
  let puzzleY := r2 + 10
  let puzzleImg := Img.crop .background puzzleX puzzleY puzzleWidth puzzleHeight
  let backgroundWithHole := Img.punch .background puzzleX puzzleY puzzleWidth puzzleHeight
  (⟨backgroundWithHole, puzzleImg, puzzleY, puzzleWidth, puzzleHeight,
    bgWidth, bgHeight, bgWidth - puzzleWidth⟩, puzzleX)

/-- The non-image part of the payload: every ChallengeData field except the
two encoded images. -/
def metaOf (d : ChallengeData) : Int × Int × Int × Int × Int × Int :=
  (d.PuzzleYPos, d.PuzzleWidth, d.PuzzleHeight, d.ContainerWidth,
   d.ContainerHeight, d.SliderMax)

/-! ## Scoring arithmetic (MakeEventStream, slider-puzzle service) -/

/-- Go int64 two's-complement wraparound: normalize an integer into
[-2^63, 2^63). Every Go `int` operation in the handler reduces its
mathematical result by this. -/
def wrap64 (z : Int) : Int :=
  (z + 2 ^ 63) % 2 ^ 64 - 2 ^ 63

/-- The tolerance computation: `tolerance := 5 - (sol.Complexity / 25);
if tolerance < 1 { tolerance = 1 }`. Go integer division truncates toward
zero, which is Int.tdiv. No wraparound is possible here: for any int64
complexity, |5 - complexity/25| stays far below 2^63. -/
def toleranceOf (complexity : Int) : Int :=
  let t := 5 - Int.tdiv complexity 25
  if t < 1 then 1 else t

/-- The confidence computation: `delta := clientX - sol.X; if delta < 0
{ delta = -delta }; if delta <= tolerance { confidence = 100 }` with
confidence initialized to 0. Both the subtraction and the negation are Go
int64 operations and wrap: in particular when the difference is exactly
-2^63 (MinInt64), `-delta` wraps back to -2^63, which is still negative
and passes `delta <= tolerance`, so the code emits 100 there. -/
def confidenceOf (complexity clientX targetX : Int) : Int :=
  let tolerance := toleranceOf complexity
  let d := wrap64 (clientX - targetX)
  let delta := if d < 0 then wrap64 (-d) else d
  if delta ≤ tolerance then 100 else 0

/-! ## Solution payload parsing (strconv.Atoi) -/

/-- Digit-string value: some value iff the list is non-empty and all
characters are decimal digits, as strconv.ParseInt requires in base 10. -/
def digitsVal (cs : List Char) : Option Nat :=
  if cs = [] then none
  else
    cs.foldl
      (fun acc c =>
        match acc with
        | none => none
        | some n => if c.isDigit then some (n * 10 + (c.toNat - 48)) else none)
      (some 0)

/-- strconv.Atoi on a 64-bit platform: optional single leading sign, then
one or more decimal digits, value within the int64 range; anything else is
an error (modelled as none). -/
def goAtoi (s : String) : Option Int :=
  match s.toList with
  | [] => none
  | c :: rest =>
    let signed : Bool × List Char :=
      if c = '-' then (true, rest)
      else if c = '+' then (false, rest)
      else (false, c :: rest)
    match digitsVal signed.2 with
    | none => none
    | some n =>
      let v : Int := if signed.1 then -(n : Int) else (n : Int)
      if v < -(2 ^ 63) ∨ 2 ^ 63 - 1 < v then none else some v

/-! ## Verification stream handler (MakeEventStream, slider-puzzle service) -/

/-- Inbound event type tag: the recognized FRONTEND_EVENT, or any other
value of the enum (ignored by the handler). -/
inductive EventType where
  | FRONTEND_EVENT : EventType
  | OTHER : EventType
deriving DecidableEq, Repr

/-- Inbound ClientEvent: type tag, challenge id, and the raw data payload
(a byte string holding the client's horizontal coordinate). -/
structure ClientEvent where
  eventType : EventType
  challengeId : String
  data : String
deriving DecidableEq, Repr

/-- Outbound ServerEvent result payload: challenge id plus confidence.
The source field is int32; the values produced are only 0 and 100, far from
any overflow, so Int is faithful. -/
structure ChallengeResult where
  challengeId : String
  confidencePercent : Int
deriving DecidableEq, Repr

/-- One store operation performed by the handler, recorded in program
order; instruments which cache calls the event-processing branch executes. -/
inductive StoreOp where
  | get (k : String) : StoreOp
  | delete (k : String) : StoreOp
deriving DecidableEq, Repr

/-- Outcome of processing one received event in the MakeEventStream loop:
the store afterwards, the result event passed to stream.Send (none when no
send is attempted), the store operations performed, and whether the loop
continues (every branch of the event handler ends in `continue`; only
stream.Recv errors leave the loop). -/
structure StepResult where
  store : Store
  out : Option ChallengeResult
  ops : List StoreOp
  cont : Bool
deriving DecidableEq, Repr

/-- The body of the MakeEventStream receive loop for one event, at time
`now`. `sendOk` is the outcome of `stream.Send` when a send is attempted; a
send error is only logged, so it affects neither the store nor control
flow. Branches in source order: non-FRONTEND events are skipped; a payload
that fails strconv.Atoi is logged and dropped; an id missing from the cache
is logged and dropped; otherwise the confidence is computed, a result event
is sent, and the entry is deleted. -/
def processEvent (now : Int) (s : Store) (e : ClientEvent) (sendOk : Bool) :
    StepResult :=
  match e.eventType with
  | .OTHER => ⟨s, none, [], true⟩
  | .FRONTEND_EVENT =>
    match goAtoi e.data with
    | none => ⟨s, none, [], true⟩
    | some clientX =>
      match cacheGet now s e.challengeId with
      | none => ⟨s, none, [.get e.challengeId], true⟩
      | some sol =>
        let confidence := confidenceOf sol.Complexity clientX sol.X
        let _ := sendOk
        ⟨cacheDelete e.challengeId s,
         some ⟨e.challengeId, confidence⟩,
         [.get e.challengeId, .delete e.challengeId], true⟩

/-! ## NewChallenge (slider-puzzle service) -/

/-- Cache TTL used by the service: `defaultExpiration = 5 * time.Minute`
in nanoseconds. -/
def defaultExpiration : Int := 300000000000

/-- Response of the NewChallenge RPC: the fresh challenge id and the
rendered payload (the template output, a fixed function of ChallengeData,
modelled by the data itself). -/
structure ChallengeResponse where
  challengeId : String
  html : ChallengeData
deriving DecidableEq, Repr

/-- The NewChallenge handler on its success path, at time `now`:
`challengeID` is the fresh uuid, `complexity` the requester-supplied value,
and (bgW, bgH, r1, r2) parametrize the Generate call. It stores
solution(X = correctX, Complexity = complexity) under the id with the
default TTL and returns (challengeID, html). -/
def NewChallenge (now : Int) (s : Store) (challengeID : String)
    (complexity : Int) (bgW bgH r1 r2 : Int) : Store × ChallengeResponse :=
  let g := Generate bgW bgH r1 r2
  let sol : Solution := ⟨g.2, complexity⟩
  (cacheSet now defaultExpiration s challengeID sol, ⟨challengeID, g.1⟩)

/-! ## Two racing solution events for one id (interleaving model)

The handler performs cache.Get, stream.Send and cache.Delete as three
separate atomic actions (go-cache takes its internal lock per call; there
is no combined take operation in the code). Two stream-handler goroutines
processing duplicate solution events for the same id therefore interleave
at these points. The model below runs two such tasks, each the found-path
of `processEvent` split at its shared-store accesses, under an explicit
schedule. -/

/-- Per-task input: the challenge id and parsed client coordinate of the
solution event the task is processing. -/
structure TaskCtx where
  challengeId : String
  clientX : Int
deriving DecidableEq, Repr

/-- Program counter of one handler task between its atomic actions. -/
inductive TaskPC where
  | atGet : TaskPC
  | atSend : TaskPC
  | atDelete : TaskPC
  | done : TaskPC
deriving DecidableEq, Repr

/-- Local state of one handler task: program counter plus the solution its
cache.Get returned (none while not yet executed or when absent). -/
structure TaskState where
  pc : TaskPC
  sol : Option Solution
deriving DecidableEq, Repr

/-- System state: the shared store, both tasks, and the result events each
task has emitted on its own stream. -/
structure SysState where
  store : Store
  task0 : TaskState
  task1 : TaskState
  out0 : List ChallengeResult
  out1 : List ChallengeResult
deriving DecidableEq, Repr

/-- One atomic action of a task: its cache.Get (a miss makes the handler
`continue`, ending the task), its stream.Send of the computed result, or
its cache.Delete. -/
def stepTask (now : Int) (c : TaskCtx) (store : Store) (t : TaskState)
    (out : List ChallengeResult) : Store × TaskState × List ChallengeResult :=
  match t.pc with
  | .atGet =>
    match cacheGet now store c.challengeId with
    | none => (store, ⟨.done, none⟩, out)
    | some sol => (store, ⟨.atSend, some sol⟩, out)
  | .atSend =>
    match t.sol with
    | none => (store, ⟨.done, none⟩, out)
    | some sol =>
      (store, ⟨.atDelete, some sol⟩,
       out ++ [⟨c.challengeId, confidenceOf sol.Complexity c.clientX sol.X⟩])
  | .atDelete => (cacheDelete c.challengeId store, ⟨.done, t.sol⟩, out)
  | .done => (store, t, out)

/-- Run the task selected by the scheduler bit for one atomic action
(false selects task 0, true selects task 1). -/
def stepSys (now : Int) (c0 c1 : TaskCtx) (σ : SysState) (i : Bool) :
    SysState :=
  if i then
    let (st, t, o) := stepTask now c1 σ.store σ.task1 σ.out1
    ⟨st, σ.task0, t, σ.out0, o⟩
  else
    let (st, t, o) := stepTask now c0 σ.store σ.task0 σ.out0
    ⟨st, t, σ.task1, o, σ.out1⟩

/-- Run a whole schedule (a list of scheduler choices) from a state. -/
def runSched (now : Int) (c0 c1 : TaskCtx) (sched : List Bool)
    (σ : SysState) : SysState :=
  sched.foldl (stepSys now c0 c1) σ

/-! ## Helper lemmas -/

/-- The clamp-below-by-one of the handler equals `max 1 t`. -/
lemma ite_lt_one_eq_max (t : Int) : (if t < 1 then 1 else t) = max 1 t := by
  by_cases h : t < 1
  · rw [if_pos h, max_eq_left h.le]
  · rw [if_neg h, max_eq_right (not_lt.mp h)]

/-- Wraparound is the identity on values already inside the int64 range. -/
lemma wrap64_eq_self (z : Int) (h1 : -(2 ^ 63) ≤ z) (h2 : z < 2 ^ 63) :
    wrap64 z = z := by
  simp only [wrap64]
  omega

/-- Closed form of the scoring branch when the 64-bit difference does not
overflow. -/
lemma confidenceOf_eq (c x t : Int) (h : |x - t| < 2 ^ 63) :
    confidenceOf c x t =
      if |x - t| ≤ max 1 (5 - Int.tdiv c 25) then 100 else 0 := by
  obtain ⟨h1, h2⟩ := abs_lt.mp h
  have hd : wrap64 (x - t) = x - t := wrap64_eq_self _ h1.le h2
  simp only [confidenceOf, toleranceOf]
  simp only [ite_lt_one_eq_max]
  rw [hd]
  by_cases hlt : x - t < 0
  · have hn : wrap64 (-(x - t)) = -(x - t) :=
      wrap64_eq_self _ (by omega) (by omega)
    rw [if_pos hlt, hn, abs_of_neg hlt]
  · rw [if_neg hlt, abs_of_nonneg (not_lt.mp hlt)]

/-- The model reproduces Go's wrap anomaly: when the difference between the
submitted and true coordinate is exactly -2^63 (an Atoi-representable
submission), `-delta` wraps back to -2^63, which passes the tolerance test,
and the code emits confidence 100 even though the mathematical deviation is
2^63. -/
lemma confidenceOf_minInt64_wraps :
    confidenceOf 25 (60 - 2 ^ 63) 60 = 100 := by
  decide

/-- A deleted key is no longer present in the store. -/
lemma storeLookup_cacheDelete_self (k : String) (s : Store) :
    storeLookup (cacheDelete k s) k = none := by
  induction s with
  | nil => rfl
  | cons p rest ih =>
    obtain ⟨k', it⟩ := p
    by_cases h : k' = k
    · simpa [cacheDelete, h] using ih
    · simpa [cacheDelete, storeLookup, h] using ih

/-! ## Claims -/

/-- C2 counterexample: the claim's flooring tolerance formula disagrees
with the code at complexity −1. The code computes tolerance
5 − tdiv(−1, 25) = 5 and scores delta 6 with confidence 0, while the
claimed formula gives max(1, 5 − floor(−1/25)) = 6 and so predicts
confidence 100 for delta 6. -/
theorem c2_floor_tolerance_counterexample :
    ¬ (confidenceOf (-1) 46 40 = 100 ↔
        |(46 : Int) - 40| ≤ max 1 (5 - Int.fdiv (-1) 25)) := by
  decide

/-- C2 (amended): for every stored complexity and submitted coordinate
whose 64-bit difference from the target does not overflow int64, the
confidence is 100 iff the absolute deviation is at most
max(1, 5 − complexity/25) with Go's truncating integer division
(Int.tdiv); for non-negative complexity the truncating and flooring
divisions agree, so the claim's flooring form holds there. When the
difference is exactly -2^63 the code's negation wraps and it emits 100
regardless of tolerance (see confidenceOf_minInt64_wraps). -/
theorem c2_confidence_formula (c x t : Int) (h : |x - t| < 2 ^ 63) :
    (confidenceOf c x t = 100 ↔ |x - t| ≤ max 1 (5 - Int.tdiv c 25)) ∧
    (0 ≤ c → Int.tdiv c 25 = Int.fdiv c 25) := by
  constructor
  · rw [confidenceOf_eq c x t h]
    by_cases h : |x - t| ≤ max 1 (5 - Int.tdiv c 25)
    · rw [if_pos h]
      simp [h]
    · rw [if_neg h]
      constructor
      · intro h0
        exact absurd h0 (by norm_num)
      · intro hc
        exact absurd hc h
  · intro hc
    exact (Int.fdiv_eq_tdiv hc (by norm_num)).symm

/-- C2 witness: complexity 50, submitted 43 against target 40 (the spec's
worked example: tolerance 3, delta 3 passes). -/
theorem c2_confidence_formula_witness :
    (confidenceOf 50 43 40 = 100 ↔
      |(43 : Int) - 40| ≤ max 1 (5 - Int.tdiv 50 25)) ∧
    Int.tdiv 50 25 = Int.fdiv 50 25 :=
  ⟨(c2_confidence_formula 50 43 40 (by decide)).1,
   (c2_confidence_formula 50 43 40 (by decide)).2 (by decide)⟩

/-- C3: the payload never embeds the secret horizontal offset. The
generated ChallengeData consists of the two encoded images plus the layout
metadata, and every metadata field is determined by the vertical draw and
the container dimensions alone — the horizontal draw `r1` (from which the
returned target coordinate `r1 + puzzleWidth` is built) does not occur in
any of them. -/
theorem c3_payload_hides_target (bgW bgH r1 r2 : Int) :
    metaOf (Generate bgW bgH r1 r2).1 =
      (r2 + 10, puzzleWidth, puzzleHeight, bgW, bgH, bgW - puzzleWidth) ∧
    (Generate bgW bgH r1 r2).2 = r1 + puzzleWidth :=
  ⟨rfl, rfl⟩

/-- C4: with the random draws in the ranges rand.Intn produces, the target
coordinate lies in [puzzleWidth, bgWidth − puzzleWidth − 10], the disclosed
vertical offset lies in [10, bgHeight − puzzleHeight − 10], and the
payload's SliderMax equals bgWidth − puzzleWidth. -/
theorem c4_generate_bounds (bgW bgH r1 r2 : Int)
    (h1 : 0 ≤ r1) (h2 : r1 < bgW - puzzleWidth - 10 - puzzleWidth)
    (h3 : 0 ≤ r2) (h4 : r2 < bgH - puzzleHeight - 10 - 10) :
    (puzzleWidth ≤ (Generate bgW bgH r1 r2).2 ∧
      (Generate bgW bgH r1 r2).2 ≤ bgW - puzzleWidth - 10) ∧
    (10 ≤ (Generate bgW bgH r1 r2).1.PuzzleYPos ∧
      (Generate bgW bgH r1 r2).1.PuzzleYPos ≤ bgH - puzzleHeight - 10) ∧
    (Generate bgW bgH r1 r2).1.SliderMax = bgW - puzzleWidth := by
  have hx : (Generate bgW bgH r1 r2).2 = r1 + 60 := rfl
  have hy : (Generate bgW bgH r1 r2).1.PuzzleYPos = r2 + 10 := rfl
  have hs : (Generate bgW bgH r1 r2).1.SliderMax = bgW - 60 := rfl
  have hpw : puzzleWidth = 60 := rfl
  have hph : puzzleHeight = 60 := rfl
  rw [hpw] at h2
  rw [hph] at h4
  rw [hx, hy, hs, hpw, hph]
  exact ⟨⟨by omega, by omega⟩, ⟨by omega, by omega⟩, rfl⟩

/-- C4 witness: a 300×200 background with draws 5 and 7. -/
theorem c4_generate_bounds_witness :
    (puzzleWidth ≤ (Generate 300 200 5 7).2 ∧
      (Generate 300 200 5 7).2 ≤ 300 - puzzleWidth - 10) ∧
    (10 ≤ (Generate 300 200 5 7).1.PuzzleYPos ∧
      (Generate 300 200 5 7).1.PuzzleYPos ≤ 200 - puzzleHeight - 10) ∧
    (Generate 300 200 5 7).1.SliderMax = 300 - puzzleWidth :=
  c4_generate_bounds 300 200 5 7 (by decide) (by decide) (by decide) (by decide)

/-- C10: the computed tolerance is always at least 1, and for non-negative
stored complexity it is at most 5. -/
theorem c10_tolerance_bounds (c : Int) :
    1 ≤ toleranceOf c ∧ (0 ≤ c → toleranceOf c ≤ 5) := by
  have hrw : toleranceOf c = max 1 (5 - Int.tdiv c 25) := by
    simp only [toleranceOf]
    exact ite_lt_one_eq_max _
  rw [hrw]
  constructor
  · exact le_max_left 1 _
  · intro hc
    have hk : 0 ≤ Int.tdiv c 25 := Int.tdiv_nonneg hc (by norm_num)
    have : (5 : Int) - Int.tdiv c 25 ≤ 5 := by omega
    omega

/-- C10 witness: complexity 50 yields tolerance 3, inside [1, 5]. -/
theorem c10_tolerance_bounds_witness :
    1 ≤ toleranceOf 50 ∧ toleranceOf 50 ≤ 5 :=
  ⟨(c10_tolerance_bounds 50).1, (c10_tolerance_bounds 50).2 (by decide)⟩

/-- C1: the claimed atomic get-and-delete does not hold of the code. The
handler performs cache.Get, stream.Send and cache.Delete as three separate
atomic actions; under the schedule Get₀, Get₁, Send₀, Delete₀, Send₁,
Delete₁, two racing duplicate solution events for the same id both find the
entry and both emit a confidence response, so the second lookup does not
observe "not found" and two (not exactly one) confidence responses are
emitted for the id. -/
theorem c1_race_two_responses :
    (runSched 0 ⟨"ch", 40⟩ ⟨"ch", 40⟩ [false, true, false, false, true, true]
        ⟨[("ch", ⟨⟨40, 25⟩, 1000⟩)], ⟨.atGet, none⟩, ⟨.atGet, none⟩,
         [], []⟩).out0 = [⟨"ch", 100⟩] ∧
    (runSched 0 ⟨"ch", 40⟩ ⟨"ch", 40⟩ [false, true, false, false, true, true]
        ⟨[("ch", ⟨⟨40, 25⟩, 1000⟩)], ⟨.atGet, none⟩, ⟨.atGet, none⟩,
         [], []⟩).out1 = [⟨"ch", 100⟩] :=
  ⟨rfl, rfl⟩

/-- C5: a parsed solution event whose id is absent from the store produces
no outbound result, leaves the store unchanged and keeps the loop running;
and after a found solution event is processed, resubmitting any value for
the same id yields no response and keeps the stream open (the entry was
consumed). -/
theorem c5_absent_id_no_response (now : Int) (s : Store) (id data : String)
    (x : Int) (sendOk : Bool) (hparse : goAtoi data = some x) :
    (cacheGet now s id = none →
      processEvent now s ⟨.FRONTEND_EVENT, id, data⟩ sendOk =
        ⟨s, none, [.get id], true⟩) ∧
    (∀ (sol : Solution) (now2 : Int) (data2 : String) (x2 : Int)
        (sendOk2 : Bool),
      cacheGet now s id = some sol → goAtoi data2 = some x2 →
      (processEvent now2
          (processEvent now s ⟨.FRONTEND_EVENT, id, data⟩ sendOk).store
          ⟨.FRONTEND_EVENT, id, data2⟩ sendOk2).out = none ∧
      (processEvent now2
          (processEvent now s ⟨.FRONTEND_EVENT, id, data⟩ sendOk).store
          ⟨.FRONTEND_EVENT, id, data2⟩ sendOk2).cont = true) := by
  constructor
  · intro hget
    simp [processEvent, hparse, hget]
  · intro sol now2 data2 x2 sendOk2 hget hparse2
    have hst : (processEvent now s ⟨.FRONTEND_EVENT, id, data⟩ sendOk).store =
        cacheDelete id s := by
      simp [processEvent, hparse, hget]
    have hget2 : cacheGet now2 (cacheDelete id s) id = none := by
      simp [cacheGet, storeLookup_cacheDelete_self]
    rw [hst]
    constructor <;> simp [processEvent, hparse2, hget2]

/-- C5 witness: an unknown id is dropped with no response, and after
consuming the entry for "idz" a resubmission yields no response. -/
theorem c5_absent_id_no_response_witness :
    processEvent 0 [] ⟨.FRONTEND_EVENT, "idz", "40"⟩ true =
      ⟨[], none, [.get ("idz")], true⟩ ∧
    (processEvent 5
        (processEvent 0 [("idz", ⟨⟨40, 25⟩, 1000⟩)]
          ⟨.FRONTEND_EVENT, "idz", "40"⟩ true).store
        ⟨.FRONTEND_EVENT, "idz", "41"⟩ true).out = none :=
  ⟨(c5_absent_id_no_response 0 [] "idz" "40" 40 true rfl).1 rfl,
   ((c5_absent_id_no_response 0 [("idz", ⟨⟨40, 25⟩, 1000⟩)] "idz" "40" 40
        true rfl).2 ⟨40, 25⟩ 5 "41" 41 true rfl rfl).1⟩

/-- C6: a solution event whose payload fails integer parsing is dropped
before any store access: no result is sent, the store is unchanged, no
store operation is performed, and the loop continues. -/
theorem c6_malformed_no_store_access (now : Int) (s : Store)
    (id data : String) (sendOk : Bool) (hparse : goAtoi data = none) :
    processEvent now s ⟨.FRONTEND_EVENT, id, data⟩ sendOk =
      ⟨s, none, [], true⟩ := by
  simp [processEvent, hparse]

/-- C6 witness: the spec's non-numeric payload "abc" against a store still
holding the entry. -/
theorem c6_malformed_no_store_access_witness :
    processEvent 0 [("id1", ⟨⟨40, 25⟩, 1000⟩)]
        ⟨.FRONTEND_EVENT, "id1", "abc"⟩ true =
      ⟨[("id1", ⟨⟨40, 25⟩, 1000⟩)], none, [], true⟩ :=
  c6_malformed_no_store_access 0 [("id1", ⟨⟨40, 25⟩, 1000⟩)] "id1" "abc"
    true rfl

/-- C7: a successful NewChallenge stores exactly the pair (X = the offset
Generate returned, Complexity = the requested value) under the fresh id —
immediately retrievable there — returns that id with the generated payload,
and touches no other key. -/
theorem c7_new_challenge_stores_and_returns (now : Int) (s : Store)
    (id : String) (complexity bgW bgH r1 r2 : Int) :
    cacheGet now (NewChallenge now s id complexity bgW bgH r1 r2).1 id =
      some ⟨(Generate bgW bgH r1 r2).2, complexity⟩ ∧
    (NewChallenge now s id complexity bgW bgH r1 r2).2.challengeId = id ∧
    (NewChallenge now s id complexity bgW bgH r1 r2).2.html =
      (Generate bgW bgH r1 r2).1 ∧
    ∀ k, k ≠ id →
      storeLookup (NewChallenge now s id complexity bgW bgH r1 r2).1 k =
        storeLookup s k := by
  refine ⟨?_, rfl, rfl, ?_⟩
  · have hcond : ¬(0 < now + defaultExpiration ∧
        now + defaultExpiration < now) := by
      simp only [defaultExpiration]
      omega
    simp [NewChallenge, cacheSet, cacheGet, storeLookup, hcond]
    intro _
    simp [defaultExpiration]
  · intro k hk
    simp [NewChallenge, cacheSet, storeLookup, Ne.symm hk]

/-- C7 witness: a fresh challenge with complexity 50 on a 300×200
background; the stored pair and returned response are checked, as is an
unrelated key. -/
theorem c7_new_challenge_stores_and_returns_witness :
    cacheGet 0 (NewChallenge 0 [] "fresh" 50 300 200 5 7).1 ("fresh") =
      some ⟨(Generate 300 200 5 7).2, 50⟩ ∧
    (NewChallenge 0 [] "fresh" 50 300 200 5 7).2.challengeId = "fresh" ∧
    (NewChallenge 0 [] "fresh" 50 300 200 5 7).2.html =
      (Generate 300 200 5 7).1 ∧
    storeLookup (NewChallenge 0 [] "fresh" 50 300 200 5 7).1 ("other") =
      storeLookup [] "other" := by
  have h := c7_new_challenge_stores_and_returns 0 [] "fresh" 50 300 200 5 7
  exact ⟨h.1, h.2.1, h.2.2.1, h.2.2.2 ("other") (by decide)⟩

/-- C8: an entry created at `created` with TTL `T` and never consumed is
unobservable by a lookup strictly more than `T` after creation — go-cache
checks the deadline inside Get, so no sweep is needed. -/
theorem c8_ttl_expiry (s : Store) (id : String) (sol : Solution)
    (created T t : Int) (h0 : 0 ≤ created) (hT : 0 < T)
    (ht : created + T < t) :
    cacheGet t (cacheSet created T s id sol) id = none := by
  have h1 : 0 < created + T := by omega
  simp [cacheGet, cacheSet, storeLookup, h1, ht]

/-- C8 witness: an entry created at time 0 with TTL 10 is gone at time 11. -/
theorem c8_ttl_expiry_witness :
    cacheGet 11 (cacheSet 0 10 [] "e" ⟨40, 25⟩) "e" = none :=
  c8_ttl_expiry [] "e" ⟨40, 25⟩ 0 10 11 (by decide) (by decide) (by decide)

/-- C9: a parsed and found solution event always sends the computed result
and then deletes the entry; the deletion and the continuing loop do not
depend on the send outcome (a send error is only logged), nor on the
confidence value. -/
theorem c9_delete_regardless_of_send (now : Int) (s : Store)
    (id data : String) (x : Int) (sol : Solution) (sendOk sendOk2 : Bool)
    (hparse : goAtoi data = some x) (hget : cacheGet now s id = some sol) :
    (processEvent now s ⟨.FRONTEND_EVENT, id, data⟩ sendOk).out =
      some ⟨id, confidenceOf sol.Complexity x sol.X⟩ ∧
    storeLookup
        (processEvent now s ⟨.FRONTEND_EVENT, id, data⟩ sendOk).store id =
      none ∧
    (processEvent now s ⟨.FRONTEND_EVENT, id, data⟩ sendOk).cont = true ∧
    processEvent now s ⟨.FRONTEND_EVENT, id, data⟩ sendOk =
      processEvent now s ⟨.FRONTEND_EVENT, id, data⟩ sendOk2 := by
  have hred : ∀ b : Bool,
      processEvent now s ⟨.FRONTEND_EVENT, id, data⟩ b =
        ⟨cacheDelete id s,
         some ⟨id, confidenceOf sol.Complexity x sol.X⟩,
         [.get id, .delete id], true⟩ := by
    intro b
    simp [processEvent, hparse, hget]
  rw [hred sendOk, hred sendOk2]
  exact ⟨rfl, storeLookup_cacheDelete_self id s, rfl, rfl⟩

/-- C9 witness: a failing solution (confidence 0) whose result send also
fails still consumes the entry and the loop continues. -/
theorem c9_delete_regardless_of_send_witness :
    (processEvent 0 [("id1", ⟨⟨40, 25⟩, 1000⟩)]
        ⟨.FRONTEND_EVENT, "id1", "90"⟩ false).out =
      some ⟨"id1", confidenceOf 25 90 40⟩ ∧
    storeLookup (processEvent 0 [("id1", ⟨⟨40, 25⟩, 1000⟩)]
        ⟨.FRONTEND_EVENT, "id1", "90"⟩ false).store ("id1") = none ∧
    (processEvent 0 [("id1", ⟨⟨40, 25⟩, 1000⟩)]
        ⟨.FRONTEND_EVENT, "id1", "90"⟩ false).cont = true ∧
    processEvent 0 [("id1", ⟨⟨40, 25⟩, 1000⟩)]
        ⟨.FRONTEND_EVENT, "id1", "90"⟩ false =
      processEvent 0 [("id1", ⟨⟨40, 25⟩, 1000⟩)]
        ⟨.FRONTEND_EVENT, "id1", "90"⟩ true :=
  c9_delete_regardless_of_send 0 [("id1", ⟨⟨40, 25⟩, 1000⟩)] "id1" "90" 90
    ⟨40, 25⟩ false true rfl rfl

end Captcha
